import Mathlib

/-!
Shallow embedding of the trendsapi repository (src/main.py, src/api_handlers.py).

Python floats are modelled as rationals (ℚ); Python dicts of JSON-like data as
association lists over a `Value` type; Python exceptions as `Except String`.
The request timestamp (wall-clock) is omitted: no claim concerns it.
-/

set_option maxHeartbeats 1000000

namespace TrendsApi

/-- JSON-like values stored in the adapters' stats dictionaries
(`Dict[str, Any]` in main.py / api_handlers.py). -/
inductive Value where
  | num (q : ℚ)
  | str (s : String)
  | dict (entries : List (String × Value))
  | list (elems : List Value)

/-- Association-list lookup, modelling Python `d[k]` / `k in d` / `d.get(k)`
on a dict (unique keys; first match). -/
def plookup {α β : Type} [DecidableEq α] : List (α × β) → α → Option β
  | [], _ => none
  | (k, v) :: rest, key => if key = k then some v else plookup rest key

/-- Python `v.get(key, default)`: succeeds on a dict, raises `AttributeError`
on any non-dict value. -/
def dictGet (v : Value) (key : String) (default : Value) : Except String Value :=
  match v with
  | .dict entries => .ok ((plookup entries key).getD default)
  | _ => .error "AttributeError"

/-- Using a value as a number (as Python's `/` does): raises `TypeError` on
non-numeric values. -/
def asNum (v : Value) : Except String ℚ :=
  match v with
  | .num q => .ok q
  | _ => .error "TypeError"

/-- Python `sum(prices) / len(prices) if prices else 0`, shared by the three
marketplace adapters in api_handlers.py. -/
def pyAvg (l : List ℚ) : ℚ :=
  if l = [] then 0 else l.sum / l.length

/-- Python `min(prices) if prices else 0` (min of a non-empty list). -/
def pyMin (l : List ℚ) : ℚ :=
  match l with
  | [] => 0
  | x :: xs => xs.foldl min x

/-- Python `max(prices) if prices else 0` (max of a non-empty list). -/
def pyMax (l : List ℚ) : ℚ :=
  match l with
  | [] => 0
  | x :: xs => xs.foldl max x

/-- The `"price_range": {"min": ..., "max": ...}` sub-dict each marketplace
adapter places in its returned stats. -/
def price_range_obj (prices : List ℚ) : Value :=
  .dict [("min", .num (pyMin prices)), ("max", .num (pyMax prices))]

/-- One Amazon search result as consumed by `fetch_amazon_trends`:
`offers` is the first listing's price (`item.offers.listings[0].price.amount`)
when the item has offers, `rating` is `item.rating` when present. -/
structure AmazonItem where
  offers : Option ℚ
  rating : Option (ℕ × ℚ)

/-- The price list built by `fetch_amazon_trends`: first-listing price of each
of the first 20 results that have offers. -/
def amazonPrices (items : List AmazonItem) : List ℚ :=
  (items.take 20).filterMap (fun item => item.offers)

/-- The stats dict returned by `fetch_amazon_trends` (api_handlers.py lines
61-70), as a function of the search results. A rating is a pair
(`rating.count`, `rating.value`). -/
def amazonStats (items : List AmazonItem) : List (String × Value) :=
  let prices := amazonPrices items
  let rated := (items.take 20).filterMap (fun item => item.rating)
  let total_reviews : ℕ := (rated.map (fun r => r.1)).sum
  let total_rating : ℚ := (rated.map (fun r => r.2)).sum
  let product_count : ℕ := (items.take 20).length
  [("avg_price", .num (pyAvg prices)),
   ("price_range", price_range_obj prices),
   ("review_count", .num total_reviews),
   ("avg_rating", .num (if product_count > 0 then total_rating / product_count else 0)),
   ("total_products", .num product_count)]

/-- One eBay active listing as consumed by `fetch_ebay_trends`:
`sellingStatus` is `float(item.sellingStatus.currentPrice.value)` when the
item has a `sellingStatus` attribute. -/
structure EbayItem where
  sellingStatus : Option ℚ

/-- The price list built by `fetch_ebay_trends` over the active results. -/
def ebayPrices (items : List EbayItem) : List ℚ :=
  items.filterMap (fun item => item.sellingStatus)

/-- The stats dict returned by `fetch_ebay_trends` (api_handlers.py lines
115-124): `active_listings` is `int(results.totalEntries)`, `sold_count` the
number of completed/sold items returned by the second query. -/
def ebayStats (active_listings : ℤ) (items : List EbayItem) (sold_count : ℕ) :
    List (String × Value) :=
  let prices := ebayPrices items
  [("active_listings", .num active_listings),
   ("sold_last_month", .num sold_count),
   ("avg_price", .num (pyAvg prices)),
   ("price_range", price_range_obj prices),
   ("total_results", .num items.length)]

/-- One Etsy listing as consumed by `fetch_etsy_trends`: `price` is required
(direct indexing, so its absence fails the whole call), the two flags come
from `.get` truthiness, and `shop_country_id` is the country_id of the Shop
sub-object when both are present. -/
structure EtsyListing where
  price : ℚ
  is_handmade : Bool
  is_vintage : Bool
  shop_country_id : Option String

/-- The price list built by `fetch_etsy_trends` (every listing's price). -/
def etsyPrices (listings : List EtsyListing) : List ℚ :=
  listings.map (fun l => l.price)

/-- The `shop_locations['domestic']` tally: listings whose shop country
equals the requested country. -/
def etsyDomestic (listings : List EtsyListing) (country : String) : ℕ :=
  listings.countP (fun l => l.shop_country_id == some country)

/-- The `shop_locations['international']` tally: all other listings. -/
def etsyInternational (listings : List EtsyListing) (country : String) : ℕ :=
  listings.countP (fun l => !(l.shop_country_id == some country))

/-- The `shop_location_distribution` pair (domestic fraction, international
fraction) computed at api_handlers.py lines 174-177: each tally divided by
`total_listings` when that is positive, else 0. -/
def shop_location_distribution (listings : List EtsyListing) (country : String) : ℚ × ℚ :=
  let total_listings : ℕ := listings.length
  (if total_listings > 0 then (etsyDomestic listings country : ℚ) / total_listings else 0,
   if total_listings > 0 then (etsyInternational listings country : ℚ) / total_listings else 0)

/-- The stats dict returned by `fetch_etsy_trends` (api_handlers.py lines
165-178). -/
def etsyStats (listings : List EtsyListing) (country : String) : List (String × Value) :=
  let prices := etsyPrices listings
  [("total_listings", .num listings.length),
   ("avg_price", .num (pyAvg prices)),
   ("price_range", price_range_obj prices),
   ("handmade_count", .num (listings.countP (fun l => l.is_handmade))),
   ("vintage_count", .num (listings.countP (fun l => l.is_vintage))),
   ("shop_location_distribution",
     .dict [("domestic", .num (shop_location_distribution listings country).1),
            ("international", .num (shop_location_distribution listings country).2)])]

/-- The stats dict returned by `fetch_google_trends` (api_handlers.py lines
213-226): `interest` is the interest-over-time series (date, value) pairs
(empty when `interest_data.empty`), and the four optional lists model the
`related_queries`/`related_topics` frames (`none` when the source returns
`None`, degraded to `[]`). -/
def googleStats (interest : List (String × ℚ))
    (rq_top rq_rising rt_top rt_rising : Option (List Value)) : List (String × Value) :=
  [("interest_over_time",
     if interest = [] then .dict [] else
       .dict [("dates", .list (interest.map (fun p => .str p.1))),
              ("values", .list (interest.map (fun p => .num p.2)))]),
   ("related_queries",
     .dict [("top", .list (rq_top.getD [])), ("rising", .list (rq_rising.getD []))]),
   ("related_topics",
     .dict [("top", .list (rt_top.getD [])), ("rising", .list (rt_rising.getD []))])]

/-- The body of the `try` block of `calculate_market_sentiment` (main.py lines
97-116): the platform string is compared against the `Platform` enum members
(a `str` Enum, so the comparisons are string comparisons); each branch does
two `.get` steps and a numeric division, any of which may raise. -/
def sentimentBody (trend_data : List (String × Value)) (platform : String) :
    Except String ℚ :=
  if platform = "amazon" then
    ((dictGet ((plookup trend_data "review_metrics").getD (.dict [])) "avg_rating"
        (.num 0)).bind asNum).map (fun avg_rating => min (avg_rating / 5) 1)
  else if platform = "ebay" then
    ((dictGet ((plookup trend_data "condition_distribution").getD (.dict [])) "New"
        (.num 0)).bind asNum).map (fun new_percentage => min (new_percentage / 100) 1)
  else if platform = "google" then
    ((dictGet ((plookup trend_data "trend_summary").getD (.dict [])) "average_interest"
        (.num 0)).bind asNum).map (fun avg_interest => min (avg_interest / 100) 1)
  else
    .ok (1/2)

/-- Helper `calculate_market_sentiment` of main.py (lines 96-119): the `try`
body, with every exception caught and mapped to the neutral default 0.5. -/
def calculate_market_sentiment (trend_data : List (String × Value))
    (platform : String) : ℚ :=
  match sentimentBody trend_data platform with
  | .ok q => q
  | .error _ => 1/2

/-- The `Platform` str-Enum of main.py (lines 40-43): exactly three members. -/
inductive Platform where
  | amazon
  | ebay
  | google
deriving DecidableEq, BEq

/-- Pydantic validation of the `platform` field of `TrendRequest` against the
`Platform` enum: only the three member values parse. -/
def platformOfString : String → Option Platform
  | "amazon" => some .amazon
  | "ebay" => some .ebay
  | "google" => some .google
  | _ => none

/-- The four adapter coroutines defined on `EcommerceAPIHandler`
(api_handlers.py). `fetch_etsy_trends` exists as an adapter but is never
registered in main.py's dispatch table. -/
inductive Handler where
  | fetch_amazon_trends
  | fetch_ebay_trends
  | fetch_google_trends
  | fetch_etsy_trends
deriving DecidableEq, BEq

/-- The `handlers` dispatch dict built in `get_trends` (main.py lines
154-158): only Amazon, eBay and Google are registered. -/
def handlers : List (Platform × Handler) :=
  [(.amazon, .fetch_amazon_trends),
   (.ebay, .fetch_ebay_trends),
   (.google, .fetch_google_trends)]

/-- Handler selection for a raw request `platform` string: pydantic enum
validation first (a non-member string is rejected with 422 before `get_trends`
runs), then the `handlers.get` lookup with its own `Unsupported platform`
rejection (main.py lines 160-165). Either rejection happens before any
adapter is invoked. -/
def select_handler (source : String) : Except String Handler :=
  match platformOfString source with
  | none => .error ("Input should be amazon, ebay or google: " ++ source)
  | some p =>
    match plookup handlers p with
    | none => .error ("Unsupported platform: " ++ source)
    | some h => .ok h

/-- Boolean view of whether handler selection succeeded (an adapter would be
invoked). -/
def selectionOk (e : Except String Handler) : Bool :=
  match e with
  | .ok _ => true
  | .error _ => false

/-- The `PriceRange` response model of main.py (lines 72-74). -/
structure PriceRange where
  min : ℚ
  max : ℚ
deriving DecidableEq

/-- The `TrendData` response model of main.py (lines 76-85), restricted to
the fields the core computes (the timestamp is the wall-clock instant and is
omitted; `error` is always `None` on the success path). `search_volume` keeps
the raw looked-up value. -/
structure TrendData where
  platform : String
  country : String
  keyword : String
  trend_data : List (String × Value)
  price_range : Option PriceRange
  search_volume : Value
  market_sentiment : ℚ

/-- The `price_range=PriceRange(...) if "price_range" in trend_data else None`
argument of the response construction (main.py lines 190-193): when the key is
present, both bounds are read with `.get(..., 0)` from the sub-object and
coerced to float by pydantic. -/
def build_price_range (td : List (String × Value)) : Except String (Option PriceRange) :=
  match plookup td "price_range" with
  | none => .ok none
  | some v =>
    match dictGet v "min" (.num 0) with
    | .error e => .error e
    | .ok mn =>
      match asNum mn with
      | .error e => .error e
      | .ok mnq =>
        match dictGet v "max" (.num 0) with
        | .error e => .error e
        | .ok mx =>
          match asNum mx with
          | .error e => .error e
          | .ok mxq => .ok (some { min := mnq, max := mxq })

/-- Response assembly in `get_trends` (main.py lines 180-196): sentiment from
`calculate_market_sentiment`, `price_range` via `build_price_range`, and
`search_volume = trend_data.get("total_products", 0)`. -/
def get_trends_response (platform country keyword : String)
    (trend_data : List (String × Value)) : Except String TrendData :=
  let market_sentiment := calculate_market_sentiment trend_data platform
  match build_price_range trend_data with
  | .error e => .error e
  | .ok pr =>
    .ok { platform := platform, country := country, keyword := keyword,
          trend_data := trend_data, price_range := pr,
          search_volume := (plookup trend_data "total_products").getD (.num 0),
          market_sentiment := market_sentiment }

/-- Every numeric leaf inside a JSON-like value is nonnegative. -/
inductive NumsNonneg : Value → Prop where
  | num (q : ℚ) : 0 ≤ q → NumsNonneg (.num q)
  | str (s : String) : NumsNonneg (.str s)
  | dict (entries : List (String × Value)) :
      (∀ kv ∈ entries, NumsNonneg kv.2) → NumsNonneg (.dict entries)
  | list (elems : List Value) :
      (∀ v ∈ elems, NumsNonneg v) → NumsNonneg (.list elems)

/-- Lookup success pins membership of the key-value pair in the list. -/
lemma plookup_mem {α β : Type} [DecidableEq α] {l : List (α × β)} {k : α} {v : β}
    (h : plookup l k = some v) : (k, v) ∈ l := by
  induction l with
  | nil => simp [plookup] at h
  | cons kv rest ih =>
    obtain ⟨k', v'⟩ := kv
    by_cases hk : k = k'
    · simp [plookup, hk] at h
      subst hk; subst h
      exact List.mem_cons_self _ _
    · simp [plookup, hk] at h
      exact List.mem_cons_of_mem _ (ih h)

lemma foldl_min_le_init (xs : List ℚ) (x : ℚ) : xs.foldl min x ≤ x := by
  induction xs generalizing x with
  | nil => exact le_refl x
  | cons a t ih => exact le_trans (ih (min x a)) (min_le_left x a)

lemma foldl_min_le_mem (xs : List ℚ) (x y : ℚ) (hy : y ∈ xs) : xs.foldl min x ≤ y := by
  induction xs generalizing x with
  | nil => simp at hy
  | cons a t ih =>
    rcases List.mem_cons.mp hy with h | h
    · subst h
      exact le_trans (foldl_min_le_init t (min x y)) (min_le_right x y)
    · exact ih (min x a) h

lemma foldl_min_mem (xs : List ℚ) (x : ℚ) : xs.foldl min x = x ∨ xs.foldl min x ∈ xs := by
  induction xs generalizing x with
  | nil => exact Or.inl rfl
  | cons a t ih =>
    rcases ih (min x a) with h | h
    · rcases min_choice x a with hm | hm
      · exact Or.inl (by rw [List.foldl_cons, h, hm])
      · exact Or.inr (by rw [List.foldl_cons, h, hm]; exact List.mem_cons_self _ _)
    · exact Or.inr (List.mem_cons_of_mem _ h)

lemma init_le_foldl_max (xs : List ℚ) (x : ℚ) : x ≤ xs.foldl max x := by
  induction xs generalizing x with
  | nil => exact le_refl x
  | cons a t ih => exact le_trans (le_max_left x a) (ih (max x a))

lemma mem_le_foldl_max (xs : List ℚ) (x y : ℚ) (hy : y ∈ xs) : y ≤ xs.foldl max x := by
  induction xs generalizing x with
  | nil => simp at hy
  | cons a t ih =>
    rcases List.mem_cons.mp hy with h | h
    · subst h
      exact le_trans (le_max_right x y) (init_le_foldl_max t (max x y))
    · exact ih (max x a) h

lemma foldl_max_mem (xs : List ℚ) (x : ℚ) : xs.foldl max x = x ∨ xs.foldl max x ∈ xs := by
  induction xs generalizing x with
  | nil => exact Or.inl rfl
  | cons a t ih =>
    rcases ih (max x a) with h | h
    · rcases max_choice x a with hm | hm
      · exact Or.inl (by rw [List.foldl_cons, h, hm])
      · exact Or.inr (by rw [List.foldl_cons, h, hm]; exact List.mem_cons_self _ _)
    · exact Or.inr (List.mem_cons_of_mem _ h)

lemma pyMin_mem {P : List ℚ} (h : P ≠ []) : pyMin P ∈ P := by
  cases P with
  | nil => exact absurd rfl h
  | cons a t =>
    rcases foldl_min_mem t a with h1 | h1
    · rw [pyMin, h1]; exact List.mem_cons_self _ _
    · rw [pyMin]; exact List.mem_cons_of_mem _ h1

lemma pyMin_le {P : List ℚ} {x : ℚ} (hx : x ∈ P) : pyMin P ≤ x := by
  cases P with
  | nil => simp at hx
  | cons a t =>
    rcases List.mem_cons.mp hx with h | h
    · rw [pyMin, h]; exact foldl_min_le_init t a
    · rw [pyMin]; exact foldl_min_le_mem t a x h

lemma pyMax_mem {P : List ℚ} (h : P ≠ []) : pyMax P ∈ P := by
  cases P with
  | nil => exact absurd rfl h
  | cons a t =>
    rcases foldl_max_mem t a with h1 | h1
    · rw [pyMax, h1]; exact List.mem_cons_self _ _
    · rw [pyMax]; exact List.mem_cons_of_mem _ h1

lemma le_pyMax {P : List ℚ} {x : ℚ} (hx : x ∈ P) : x ≤ pyMax P := by
  cases P with
  | nil => simp at hx
  | cons a t =>
    rcases List.mem_cons.mp hx with h | h
    · rw [pyMax, h]; exact init_le_foldl_max t a
    · rw [pyMax]; exact mem_le_foldl_max t a x h

lemma pyMin_le_pyMax (P : List ℚ) : pyMin P ≤ pyMax P := by
  cases hP : P with
  | nil => simp [pyMin, pyMax]
  | cons a t =>
    exact le_trans (pyMin_le (List.mem_cons_self a t)) (le_pyMax (List.mem_cons_self a t))

lemma countP_add_countP_not {α : Type} (l : List α) (p : α → Bool) :
    l.countP p + l.countP (fun a => !(p a)) = l.length := by
  induction l with
  | nil => simp
  | cons a t ih =>
    by_cases h : p a <;> simp [List.countP_cons, h] <;> omega

/-- The two-step `.get` extraction performed by each sentiment branch can only
produce a nonnegative number when every numeric leaf of the mapping is
nonnegative (the defaults are 0). -/
lemma extract_ok_nonneg (td : List (String × Value)) (k1 k2 : String) (q : ℚ)
    (h : ∀ kv ∈ td, NumsNonneg kv.2)
    (hq : (dictGet ((plookup td k1).getD (.dict [])) k2 (.num 0)).bind asNum = .ok q) :
    0 ≤ q := by
  cases hl : plookup td k1 with
  | none =>
    rw [hl] at hq
    simp [dictGet, plookup, asNum, Except.bind] at hq
    exact le_of_eq hq
  | some v =>
    rw [hl] at hq
    have hv : NumsNonneg v := h (k1, v) (plookup_mem hl)
    cases v with
    | num r => simp [dictGet, Except.bind] at hq
    | str s => simp [dictGet, Except.bind] at hq
    | list l => simp [dictGet, Except.bind] at hq
    | dict d =>
      simp only [Option.getD_some, dictGet, Except.bind] at hq
      cases hd : plookup d k2 with
      | none =>
        rw [hd] at hq
        simp [asNum] at hq
        exact le_of_eq hq
      | some w =>
        rw [hd] at hq
        have hw : NumsNonneg w := by
          cases hv with
          | dict _ hall => exact hall (k2, w) (plookup_mem hd)
        cases w with
        | num r =>
          simp [asNum] at hq
          cases hw with
          | num _ hr => exact hq ▸ hr
        | str s => simp [asNum] at hq
        | dict d2 => simp [asNum] at hq
        | list l2 => simp [asNum] at hq

/-- A successful price-range build is a `some` exactly when the payload has
the `price_range` key. -/
lemma build_price_range_isSome (td : List (String × Value)) (pr : Option PriceRange)
    (h : build_price_range td = .ok pr) :
    pr.isSome = (plookup td "price_range").isSome := by
  cases hl : plookup td "price_range" with
  | none =>
    simp only [build_price_range, hl] at h
    cases h
    simp
  | some v =>
    simp only [build_price_range, hl] at h
    cases hm1 : dictGet v "min" (.num 0) with
    | error e => simp [hm1, Except.bind] at h
    | ok mn =>
      simp only [hm1] at h
      cases hm2 : asNum mn with
      | error e => simp [hm2, Except.bind] at h
      | ok mnq =>
        simp only [hm2] at h
        cases hm3 : dictGet v "max" (.num 0) with
        | error e => simp [hm3, Except.bind] at h
        | ok mx =>
          simp only [hm3] at h
          cases hm4 : asNum mx with
          | error e => simp [hm4, Except.bind] at h
          | ok mxq =>
            simp only [hm4] at h
            cases h
            simp

/-- A successful run of the try-block body returns either the fallthrough 1/2
or the clamp `min (r / c) 1` of a metric `r` extracted from the mapping by the
two-step `.get` pattern, with a positive divisor `c`. -/
lemma sentimentBody_cases (td : List (String × Value)) (platform : String) (q : ℚ)
    (h : sentimentBody td platform = .ok q) :
    q = 1 / 2 ∨ ∃ (k1 k2 : String) (c r : ℚ), 0 < c ∧ q = min (r / c) 1 ∧
      (dictGet ((plookup td k1).getD (.dict [])) k2 (.num 0)).bind asNum = .ok r := by
  unfold sentimentBody at h
  by_cases h1 : platform = "amazon"
  · rw [if_pos h1] at h
    cases hm : (dictGet ((plookup td "review_metrics").getD (.dict [])) "avg_rating"
        (.num 0)).bind asNum with
    | error e => simp [hm, Except.map] at h
    | ok r =>
      simp only [hm, Except.map] at h
      cases h
      exact Or.inr ⟨"review_metrics", "avg_rating", 5, r, by norm_num, rfl, hm⟩
  · rw [if_neg h1] at h
    by_cases h2 : platform = "ebay"
    · rw [if_pos h2] at h
      cases hm : (dictGet ((plookup td "condition_distribution").getD (.dict [])) "New"
          (.num 0)).bind asNum with
      | error e => simp [hm, Except.map] at h
      | ok r =>
        simp only [hm, Except.map] at h
        cases h
        exact Or.inr ⟨"condition_distribution", "New", 100, r, by norm_num, rfl, hm⟩
    · rw [if_neg h2] at h
      by_cases h3 : platform = "google"
      · rw [if_pos h3] at h
        cases hm : (dictGet ((plookup td "trend_summary").getD (.dict []))
            "average_interest" (.num 0)).bind asNum with
        | error e => simp [hm, Except.map] at h
        | ok r =>
          simp only [hm, Except.map] at h
          cases h
          exact Or.inr ⟨"trend_summary", "average_interest", 100, r, by norm_num, rfl, hm⟩
      · rw [if_neg h3] at h
        cases h
        exact Or.inl rfl

/-- C3 (amended): for every input trend-data mapping and every platform the
sentiment is clamped from above to at most 1; and it is also bounded below by
0 — hence lies in [0,1] — whenever every numeric leaf of the mapping is
nonnegative (as in every payload the adapters produce). The scorer applies
`min(..., 1.0)` but never a lower clamp, so without that restriction the
lower bound can fail. -/
theorem C3_sentiment_bounds (td : List (String × Value)) (platform : String) :
    calculate_market_sentiment td platform ≤ 1 ∧
    ((∀ kv ∈ td, NumsNonneg kv.2) → 0 ≤ calculate_market_sentiment td platform) := by
  unfold calculate_market_sentiment
  cases hb : sentimentBody td platform with
  | error e => exact ⟨by norm_num, fun _ => by norm_num⟩
  | ok q =>
    rcases sentimentBody_cases td platform q hb with hq | ⟨k1, k2, c, r, hc, hq, hm⟩
    · subst hq
      exact ⟨by norm_num, fun _ => by norm_num⟩
    · subst hq
      refine ⟨min_le_right _ _, fun h => ?_⟩
      exact le_min (div_nonneg (extract_ok_nonneg td k1 k2 r h hm) (le_of_lt hc))
        (by norm_num)

/-- C3 witness: both bounds evaluated at a concrete nonnegative Amazon-shaped
mapping, the nonnegativity side condition discharged there. -/
theorem C3_sentiment_bounds_witness :
    calculate_market_sentiment
        [("review_metrics", Value.dict [("avg_rating", Value.num 3)])] "amazon" ≤ 1 ∧
    0 ≤ calculate_market_sentiment
        [("review_metrics", Value.dict [("avg_rating", Value.num 3)])] "amazon" :=
  ⟨(C3_sentiment_bounds
      [("review_metrics", Value.dict [("avg_rating", Value.num 3)])] "amazon").1,
   (C3_sentiment_bounds
      [("review_metrics", Value.dict [("avg_rating", Value.num 3)])] "amazon").2 (by
    intro kv hkv
    simp only [List.mem_singleton] at hkv
    subst hkv
    exact NumsNonneg.dict _ (by
      intro kv2 hkv2
      simp only [List.mem_singleton] at hkv2
      subst hkv2
      exact NumsNonneg.num 3 (by norm_num)))⟩

/-- C3 counterexample: the scorer never clamps from below, so a mapping with a
negative rating yields a sentiment below 0. -/
theorem C3_counterexample :
    calculate_market_sentiment
      [("review_metrics", Value.dict [("avg_rating", Value.num (-5))])] "amazon" < 0 := by
  simp [calculate_market_sentiment, sentimentBody, plookup, dictGet, asNum,
    Except.bind, Except.map]

/-- C1 (code bug): for the spec's CatalogSearch scenario (3 results, prices
10/20/30, ratings 4 and 5 with review counts 100 and 50, one unrated item),
the adapter reports avg_price=20, price_range=(10,30) and avg_rating=3, yet
the assembled sentiment is 0, not min(3/5, 1) = 0.6: the scorer reads the
avg_rating entry nested under a review_metrics key, which the Amazon adapter
never emits (its avg_rating sits at top level), so the rating defaults
to 0. -/
theorem C1_catalog_scenario :
    plookup (amazonStats [⟨some 10, some (100, 4)⟩, ⟨some 20, some (50, 5)⟩,
        ⟨some 30, none⟩]) "avg_price" = some (.num 20) ∧
    plookup (amazonStats [⟨some 10, some (100, 4)⟩, ⟨some 20, some (50, 5)⟩,
        ⟨some 30, none⟩]) "price_range" =
      some (.dict [("min", .num 10), ("max", .num 30)]) ∧
    plookup (amazonStats [⟨some 10, some (100, 4)⟩, ⟨some 20, some (50, 5)⟩,
        ⟨some 30, none⟩]) "avg_rating" = some (.num 3) ∧
    calculate_market_sentiment (amazonStats [⟨some 10, some (100, 4)⟩,
        ⟨some 20, some (50, 5)⟩, ⟨some 30, none⟩]) "amazon" = 0 ∧
    (0 : ℚ) ≠ min (3 / 5) 1 := by
  refine ⟨?_, ?_, ?_, ?_, by norm_num⟩
  · simp [amazonStats, amazonPrices, pyAvg, plookup]
    norm_num
  · simp [amazonStats, price_range_obj, pyMin, pyMax, amazonPrices, plookup]
    norm_num
  · simp [amazonStats, plookup]
    norm_num
  · simp [calculate_market_sentiment, sentimentBody, amazonStats, plookup, dictGet,
      asNum, Except.bind, Except.map]

/-- C2 (amended): the eBay and Google adapters never emit the
`condition_distribution` / `trend_summary` keys the scorer reads, so for
every payload they produce the missing field defaults to 0 via `.get` and the
sentiment is min(0/100, 1) = 0.0 — not the neutral default 0.5 (no exception
is raised, so the except-branch never runs). -/
theorem C2_gap_sentiment :
    (∀ (active_listings : ℤ) (items : List EbayItem) (sold_count : ℕ),
        calculate_market_sentiment (ebayStats active_listings items sold_count) "ebay" = 0) ∧
    (∀ (interest : List (String × ℚ)) (rq_top rq_rising rt_top rt_rising : Option (List Value)),
        calculate_market_sentiment
          (googleStats interest rq_top rq_rising rt_top rt_rising) "google" = 0) ∧
    (∀ (active_listings : ℤ) (items : List EbayItem) (sold_count : ℕ),
        plookup (ebayStats active_listings items sold_count) "condition_distribution" = none) ∧
    (∀ (interest : List (String × ℚ)) (rq_top rq_rising rt_top rt_rising : Option (List Value)),
        plookup (googleStats interest rq_top rq_rising rt_top rt_rising) "trend_summary" = none) := by
  refine ⟨?_, ?_, ?_, ?_⟩
  · intro active_listings items sold_count
    simp [calculate_market_sentiment, sentimentBody, ebayStats, plookup, dictGet,
      asNum, Except.bind, Except.map]
  · intro interest rq_top rq_rising rt_top rt_rising
    simp [calculate_market_sentiment, sentimentBody, googleStats, plookup, dictGet,
      asNum, Except.bind, Except.map]
  · intro active_listings items sold_count
    simp [ebayStats, plookup]
  · intro interest rq_top rq_rising rt_top rt_rising
    simp [googleStats, plookup]

/-- C2 counterexample: the spec's own Auction scenario payload (totalEntries
500, two items priced 50 and 70) gets sentiment 0, not 0.5. -/
theorem C2_counterexample :
    calculate_market_sentiment (ebayStats 500 [⟨some 50⟩, ⟨some 70⟩] 0) "ebay" = 0 ∧
    (0 : ℚ) ≠ 1 / 2 := by
  constructor
  · simp [calculate_market_sentiment, sentimentBody, ebayStats, plookup, dictGet,
      asNum, Except.bind, Except.map]
  · norm_num

/-- C4: sentiment computation is total (it always yields a rational), and
whenever the try-block body raises, the caught result is exactly the neutral
default 1/2. -/
theorem C4_sentiment_total (td : List (String × Value)) (platform : String) :
    (∃ q : ℚ, calculate_market_sentiment td platform = q) ∧
    (∀ e : String, sentimentBody td platform = .error e →
        calculate_market_sentiment td platform = 1 / 2) := by
  refine ⟨⟨calculate_market_sentiment td platform, rfl⟩, ?_⟩
  intro e he
  unfold calculate_market_sentiment
  rw [he]

/-- C4 witness: a mapping whose `review_metrics` entry is a bare number makes
the second `.get` raise `AttributeError`; the result is the neutral 1/2. -/
theorem C4_sentiment_total_witness :
    sentimentBody [("review_metrics", Value.num 3)] "amazon" = .error "AttributeError" ∧
    calculate_market_sentiment [("review_metrics", Value.num 3)] "amazon" = 1 / 2 :=
  ⟨by simp [sentimentBody, plookup, dictGet, Except.bind, Except.map],
   (C4_sentiment_total [("review_metrics", Value.num 3)] "amazon").2 "AttributeError"
     (by simp [sentimentBody, plookup, dictGet, Except.bind, Except.map])⟩

/-- C5 (amended): the assembled response carries `price_range` iff the
adapter payload has a `price_range` key — and all three marketplace adapters
always emit that key, even for an empty price sample (then with min=max=0),
so the field is never absent for their payloads. -/
theorem C5_price_range_presence :
    (∀ (platform country keyword : String) (td : List (String × Value)) (r : TrendData),
        get_trends_response platform country keyword td = .ok r →
        r.price_range.isSome = (plookup td "price_range").isSome) ∧
    (∀ items : List AmazonItem, (plookup (amazonStats items) "price_range").isSome = true) ∧
    (∀ (active_listings : ℤ) (items : List EbayItem) (sold_count : ℕ),
        (plookup (ebayStats active_listings items sold_count) "price_range").isSome = true) ∧
    (∀ (listings : List EtsyListing) (country : String),
        (plookup (etsyStats listings country) "price_range").isSome = true) := by
  refine ⟨?_, ?_, ?_, ?_⟩
  · intro platform country keyword td r hr
    unfold get_trends_response at hr
    cases hb : build_price_range td with
    | error e => rw [hb] at hr; simp at hr
    | ok pr =>
      rw [hb] at hr
      simp only [Except.ok.injEq] at hr
      have : r.price_range = pr := by rw [← hr]
      rw [this]
      exact build_price_range_isSome td pr hb
  · intro items
    simp [amazonStats, plookup]
  · intro active_listings items sold_count
    simp [ebayStats, plookup]
  · intro listings country
    simp [etsyStats, plookup]

/-- C5 witness: a concrete assembled Amazon response, with the presence
equivalence discharged on it. -/
theorem C5_price_range_presence_witness :
    get_trends_response "amazon" "United States" "wireless headphones"
        (amazonStats [⟨none, none⟩]) =
      .ok { platform := "amazon", country := "United States",
            keyword := "wireless headphones",
            trend_data := amazonStats [⟨none, none⟩],
            price_range := some ⟨0, 0⟩, search_volume := .num 1,
            market_sentiment := 0 } ∧
    (some (PriceRange.mk 0 0)).isSome =
      (plookup (amazonStats [⟨none, none⟩]) "price_range").isSome := by
  have h : get_trends_response "amazon" "United States" "wireless headphones"
      (amazonStats [⟨none, none⟩]) =
      .ok { platform := "amazon", country := "United States",
            keyword := "wireless headphones",
            trend_data := amazonStats [⟨none, none⟩],
            price_range := some ⟨0, 0⟩, search_volume := .num 1,
            market_sentiment := 0 } := by
    simp [get_trends_response, build_price_range, calculate_market_sentiment,
      sentimentBody, amazonStats, amazonPrices, price_range_obj, pyAvg, pyMin, pyMax,
      plookup, dictGet, asNum, Except.bind, Except.map]
  exact ⟨h, C5_price_range_presence.1 "amazon" "United States" "wireless headphones"
    (amazonStats [⟨none, none⟩]) _ h⟩

/-- C5 counterexample: an Amazon run that observed no priced items (one item
without offers) still produces a response whose `price_range` is present,
with min=max=0 — the claim says it should be absent. -/
theorem C5_counterexample :
    amazonPrices [⟨none, none⟩] = [] ∧
    get_trends_response "amazon" "United States" "wireless headphones"
        (amazonStats [⟨none, none⟩]) =
      .ok { platform := "amazon", country := "United States",
            keyword := "wireless headphones",
            trend_data := amazonStats [⟨none, none⟩],
            price_range := some ⟨0, 0⟩, search_volume := .num 1,
            market_sentiment := 0 } ∧
    (some (PriceRange.mk 0 0) : Option PriceRange) ≠ none := by
  refine ⟨by simp [amazonPrices], ?_, by simp⟩
  simp [get_trends_response, build_price_range, calculate_market_sentiment,
    sentimentBody, amazonStats, amazonPrices, price_range_obj, pyAvg, pyMin, pyMax,
    plookup, dictGet, asNum, Except.bind, Except.map]

/-- C6 (amended): the assembled `search_volume` is
`trend_data.get("total_products", 0)` — the payload's field when present,
and the integer 0 (present, not omitted) when absent, as for every eBay
payload (which never has the key). -/
theorem C6_search_volume :
    (∀ (platform country keyword : String) (td : List (String × Value)) (r : TrendData),
        get_trends_response platform country keyword td = .ok r →
        r.search_volume = (plookup td "total_products").getD (.num 0)) ∧
    (∀ (active_listings : ℤ) (items : List EbayItem) (sold_count : ℕ),
        plookup (ebayStats active_listings items sold_count) "total_products" = none) := by
  constructor
  · intro platform country keyword td r hr
    unfold get_trends_response at hr
    cases hb : build_price_range td with
    | error e => rw [hb] at hr; simp at hr
    | ok pr =>
      rw [hb] at hr
      simp only [Except.ok.injEq] at hr
      rw [← hr]
  · intro active_listings items sold_count
    simp [ebayStats, plookup]

/-- C6 witness: the Auction scenario payload assembled into a response; its
`search_volume` equals the defaulted lookup (the integer 0). -/
theorem C6_search_volume_witness :
    get_trends_response "ebay" "United Kingdom" "smart watch"
        (ebayStats 500 [⟨some 50⟩, ⟨some 70⟩] 0) =
      .ok { platform := "ebay", country := "United Kingdom", keyword := "smart watch",
            trend_data := ebayStats 500 [⟨some 50⟩, ⟨some 70⟩] 0,
            price_range := some ⟨50, 70⟩, search_volume := .num 0,
            market_sentiment := 0 } ∧
    Value.num 0 = (plookup (ebayStats 500 [⟨some 50⟩, ⟨some 70⟩] 0)
        "total_products").getD (.num 0) := by
  have h : get_trends_response "ebay" "United Kingdom" "smart watch"
      (ebayStats 500 [⟨some 50⟩, ⟨some 70⟩] 0) =
      .ok { platform := "ebay", country := "United Kingdom", keyword := "smart watch",
            trend_data := ebayStats 500 [⟨some 50⟩, ⟨some 70⟩] 0,
            price_range := some ⟨50, 70⟩, search_volume := .num 0,
            market_sentiment := 0 } := by
    simp [get_trends_response, build_price_range, calculate_market_sentiment,
      sentimentBody, ebayStats, ebayPrices, price_range_obj, pyAvg, pyMin, pyMax,
      plookup, dictGet, asNum, Except.bind, Except.map]
    norm_num
  exact ⟨h, C6_search_volume.1 "ebay" "United Kingdom" "smart watch"
    (ebayStats 500 [⟨some 50⟩, ⟨some 70⟩] 0) _ h⟩

/-- C6 counterexample: an eBay payload has no total-products field, yet the
assembled response's `search_volume` is the integer 0, not omitted. -/
theorem C6_counterexample :
    plookup (ebayStats 500 [⟨some 50⟩, ⟨some 70⟩] 0) "total_products" = none ∧
    get_trends_response "ebay" "United Kingdom" "smart watch"
        (ebayStats 500 [⟨some 50⟩, ⟨some 70⟩] 0) =
      .ok { platform := "ebay", country := "United Kingdom", keyword := "smart watch",
            trend_data := ebayStats 500 [⟨some 50⟩, ⟨some 70⟩] 0,
            price_range := some ⟨50, 70⟩, search_volume := .num 0,
            market_sentiment := 0 } := by
  constructor
  · simp [ebayStats, plookup]
  · simp [get_trends_response, build_price_range, calculate_market_sentiment,
      sentimentBody, ebayStats, ebayPrices, price_range_obj, pyAvg, pyMin, pyMax,
      plookup, dictGet, asNum, Except.bind, Except.map]
    norm_num

/-- C7: the reported average price is 0 for an empty sample and the exact
arithmetic mean otherwise; the reported min/max are the sample extremes
(0 for the empty sample); and the Amazon/eBay adapters report exactly these
statistics over their collected samples. -/
theorem C7_price_sample_stats (P : List ℚ) :
    (P = [] → pyAvg P = 0 ∧ pyMin P = 0 ∧ pyMax P = 0) ∧
    (P ≠ [] → pyAvg P = P.sum / (P.length : ℚ) ∧
      pyMin P ∈ P ∧ (∀ x ∈ P, pyMin P ≤ x) ∧
      pyMax P ∈ P ∧ (∀ x ∈ P, x ≤ pyMax P)) ∧
    (∀ items : List AmazonItem,
        plookup (amazonStats items) "avg_price" =
          some (.num (pyAvg (amazonPrices items)))) ∧
    (∀ (active_listings : ℤ) (items : List EbayItem) (sold_count : ℕ),
        plookup (ebayStats active_listings items sold_count) "avg_price" =
          some (.num (pyAvg (ebayPrices items)))) := by
  refine ⟨?_, ?_, ?_, ?_⟩
  · intro he
    subst he
    simp [pyAvg, pyMin, pyMax]
  · intro hne
    refine ⟨by rw [pyAvg, if_neg hne], pyMin_mem hne, fun x hx => pyMin_le hx,
      pyMax_mem hne, fun x hx => le_pyMax hx⟩
  · intro items
    simp [amazonStats, plookup]
  · intro active_listings items sold_count
    simp [ebayStats, plookup]

/-- C7 witness: the scenario sample with prices 10 and 30 (and the empty
sample), evaluated through the theorem. -/
theorem C7_price_sample_stats_witness :
    pyAvg [(10 : ℚ), 30] = ([(10 : ℚ), 30].sum) / (([(10 : ℚ), 30].length : ℕ) : ℚ) ∧
    pyMin [(10 : ℚ), 30] ∈ [(10 : ℚ), 30] ∧
    pyAvg ([] : List ℚ) = 0 :=
  ⟨((C7_price_sample_stats [10, 30]).2.1 (by simp)).1,
   ((C7_price_sample_stats [10, 30]).2.1 (by simp)).2.1,
   ((C7_price_sample_stats []).1 rfl).1⟩

/-- C8: the Handmade adapter's domestic and international shop-location
fractions sum to exactly 1 on any non-empty listing set, and are both 0 on
the empty listing set. -/
theorem C8_location_fractions (listings : List EtsyListing) (country : String) :
    (listings ≠ [] →
      (shop_location_distribution listings country).1 +
        (shop_location_distribution listings country).2 = 1) ∧
    (listings = [] →
      (shop_location_distribution listings country).1 = 0 ∧
      (shop_location_distribution listings country).2 = 0) := by
  constructor
  · intro hne
    have hlen : 0 < listings.length := List.length_pos.mpr hne
    have hsum : etsyDomestic listings country + etsyInternational listings country =
        listings.length := by
      simp only [etsyDomestic, etsyInternational]
      exact countP_add_countP_not listings (fun l => l.shop_country_id == some country)
    have hq : (listings.length : ℚ) ≠ 0 :=
      Nat.cast_ne_zero.mpr (Nat.pos_iff_ne_zero.mp hlen)
    simp only [shop_location_distribution, if_pos hlen]
    rw [div_add_div_same, ← Nat.cast_add, hsum]
    exact div_self hq
  · intro he
    subst he
    simp [shop_location_distribution]

/-- C8 witness: one domestic listing yields fractions summing to 1. -/
theorem C8_location_fractions_witness :
    (shop_location_distribution [⟨10, true, false, some "US"⟩] "US").1 +
      (shop_location_distribution [⟨10, true, false, some "US"⟩] "US").2 = 1 :=
  (C8_location_fractions [⟨10, true, false, some "US"⟩] "US").1 (by simp)

/-- C9: the raw source value "etsy" is not a member of the `Platform` enum, so
the request is rejected at validation — before any handler lookup or adapter
call — and the dispatch table never maps any platform to the Etsy adapter,
even though `fetch_etsy_trends` exists. -/
theorem C9_etsy_unsupported :
    platformOfString "etsy" = none ∧
    select_handler "etsy" = .error "Input should be amazon, ebay or google: etsy" ∧
    selectionOk (select_handler "etsy") = false ∧
    (handlers.map Prod.snd).contains Handler.fetch_etsy_trends = false := by
  refine ⟨rfl, rfl, rfl, rfl⟩

/-- C10: in every `price_range` object any of the three marketplace adapters
emits, min ≤ max, including the empty sample where both are 0. -/
theorem C10_price_range_ordered (P : List ℚ) (items : List AmazonItem)
    (active_listings : ℤ) (eitems : List EbayItem) (sold_count : ℕ)
    (listings : List EtsyListing) (country : String) :
    pyMin P ≤ pyMax P ∧
    plookup (amazonStats items) "price_range" =
      some (price_range_obj (amazonPrices items)) ∧
    plookup (ebayStats active_listings eitems sold_count) "price_range" =
      some (price_range_obj (ebayPrices eitems)) ∧
    plookup (etsyStats listings country) "price_range" =
      some (price_range_obj (etsyPrices listings)) := by
  refine ⟨pyMin_le_pyMax P, ?_, ?_, ?_⟩
  · simp [amazonStats, plookup]
  · simp [ebayStats, plookup]
  · simp [etsyStats, plookup]

end TrendsApi
